import Mathlib

/-!
Verification model of the `remindwindows` repository.

This file gives a shallow embedding of the testable core of the repository:
the slug/filename deriver `text_to_fpath`, reference resolution
`resolve_reminder`, the CLI helpers `add_reminder`, `get_reminder`,
`delete_reminders`, `not_reminder` (all from `src/api.py`), and the
reminder-set synchronizer `file_created` / `file_deleted` /
`is_existing_reminder` (from `remindwindows/remindme.py`).

Modelling conventions:
* Strings are modelled as `List Char` (`Str`), and paths inside the reminder
  directory are modelled by their directory-relative filename.
* The filesystem is modelled as a partial map from filename to content
  (`FS := Str → Option Str`); the set of names present in the directory is
  modelled either as such a map or, where only existence is consulted, as a
  boolean oracle `Str → Bool`.
* Python exceptions are modelled with `Except Str`, carrying the message.
* Python's `while fpath.exists()` loop in `text_to_fpath` has no intrinsic
  bound, so its embedding `remLoop` takes explicit fuel and returns `none`
  when the fuel runs out; every theorem about it either supplies concrete
  sufficient fuel or is conditional on the loop returning a value.
* Python's Unicode-aware character classes (`\w` in `re`, `str.isdigit`,
  `str.isprintable`) are modelled exactly on the Basic Latin and Latin-1
  ranges (code points below 0x100, per the Unicode character database);
  code points at or above 0x100 are classified uniformly (as alphanumeric,
  printable non-digits, matching the common case of letters).  No theorem
  below depends on the classification of a code point at or above 0x100.
-/

set_option maxRecDepth 100000

/-- Strings, modelled as lists of characters. -/
abbrev Str := List Char

/-- Literal helper: the character list of a string literal. -/
def lit (s : String) : Str := s.toList

/-- Single-quote character (code point 39), used in error messages. -/
def squote : Char := Char.ofNat 39

/-- Python `str.isalnum` on one character, exact for code points < 0x100
(ASCII alphanumerics; Latin-1 letters and numeric characters per the
Unicode database: ª ² ³ µ ¹ º ¼ ½ ¾ and the letter ranges À–ÿ minus × ÷).
Code points ≥ 0x100 are uniformly classified as alphanumeric. -/
def pyIsAlnum (c : Char) : Bool :=
  let v := c.toNat
  (0x30 ≤ v && v ≤ 0x39) || (0x41 ≤ v && v ≤ 0x5A) || (0x61 ≤ v && v ≤ 0x7A) ||
  v == 0xAA || v == 0xB2 || v == 0xB3 || v == 0xB5 || v == 0xB9 || v == 0xBA ||
  (0xBC ≤ v && v ≤ 0xBE) ||
  (0xC0 ≤ v && v ≤ 0xFF && !(v == 0xD7) && !(v == 0xF7)) ||
  0x100 ≤ v

/-- Python regex word character (`\w` with `re.UNICODE`): alphanumeric or
underscore. -/
def pyWordChar (c : Char) : Bool := pyIsAlnum c || c == '_'

/-- One character of the class `[\W_]` used in `text_to_fpath`:
a non-word character, or the underscore. -/
def inStripClass (c : Char) : Bool := !(pyWordChar c) || c == '_'

/-- Python `str.isdigit` on one character, exact for code points < 0x100
(the ASCII digits; the Latin-1 superscripts ² ³ ¹ are digit characters). -/
def pyIsDigitChar (c : Char) : Bool :=
  (0x30 ≤ c.toNat && c.toNat ≤ 0x39) ||
  c.toNat == 0xB2 || c.toNat == 0xB3 || c.toNat == 0xB9

/-- Python `str.isdigit`: non-empty and every character a digit. -/
def isDigitStr (s : Str) : Bool := !(s.isEmpty) && s.all pyIsDigitChar

/-- Python `str.isprintable` on one character, exact for code points < 0x100
(printable iff not a control character, not DEL, not in the C1 range, not
NBSP 0xA0 and not the soft hyphen 0xAD; the space 0x20 is printable).
Code points ≥ 0x100 are uniformly classified as printable. -/
def pyIsPrintableChar (c : Char) : Bool :=
  let v := c.toNat
  (0x20 ≤ v && v ≤ 0x7E) || (0xA1 ≤ v && v ≤ 0xFF && !(v == 0xAD)) || 0x100 ≤ v

/-- Python `str.isprintable`: every character printable (true on empty). -/
def isPrintableStr (s : Str) : Bool := s.all pyIsPrintableChar

/-! ## SHA-1 (used by the hash fallback of `text_to_fpath`)

`hashlib.sha1(text.encode("utf8", 'replace')).hexdigest()`.  The embedding
works over lists of byte values (`Nat`s below 256) and 32-bit words
(`Nat`s reduced modulo `2 ^ 32`). -/

/-- UTF-8 encoding of one character (Python `str.encode("utf8")`;
the `'replace'` error handler only affects lone surrogates, which `Char`
cannot represent). -/
def utf8Char (c : Char) : List Nat :=
  let v := c.toNat
  if v < 0x80 then [v]
  else if v < 0x800 then [0xC0 + v / 64, 0x80 + v % 64]
  else if v < 0x10000 then [0xE0 + v / 4096, 0x80 + v / 64 % 64, 0x80 + v % 64]
  else [0xF0 + v / 262144, 0x80 + v / 4096 % 64, 0x80 + v / 64 % 64, 0x80 + v % 64]

/-- UTF-8 encoding of a string as a byte list. -/
def utf8Encode (s : Str) : List Nat := (s.map utf8Char).flatten

/-- Rotate a 32-bit word left by `k` bits. -/
def rotl32 (k x : Nat) : Nat :=
  Nat.lor ((x * 2 ^ k) % 2 ^ 32) (x / 2 ^ (32 - k))

/-- Big-endian 64-bit byte encoding of a message bit length. -/
def be64 (n : Nat) : List Nat := (List.range 8).map (fun i => n / 256 ^ (7 - i) % 256)

/-- SHA-1 message padding: append `0x80`, zero bytes to 56 mod 64, then the
big-endian 64-bit bit length. -/
def sha1Pad (msg : List Nat) : List Nat :=
  let r := (msg.length + 1) % 64
  let k := (64 + 56 - r) % 64
  msg ++ [0x80] ++ List.replicate k 0 ++ be64 (8 * msg.length)

/-- Split a byte list into 64-byte chunks (fueled; the fuel is the list
length, which bounds the number of chunks). -/
def chunks64Go : Nat → List Nat → List (List Nat)
  | _, [] => []
  | 0, _ :: _ => []
  | Nat.succ f, l@(_ :: _) => l.take 64 :: chunks64Go f (l.drop 64)

/-- Split a byte list into 64-byte chunks. -/
def chunks64 (l : List Nat) : List (List Nat) := chunks64Go l.length l

/-- Big-endian 32-bit word from the first four bytes of a list. -/
def beWord (bs : List Nat) : Nat :=
  bs.getD 0 0 * 16777216 + bs.getD 1 0 * 65536 + bs.getD 2 0 * 256 + bs.getD 3 0

/-- Extend the 16-word schedule to 80 words, one word per fuel step. -/
def wExtend : Nat → List Nat → List Nat
  | 0, w => w
  | Nat.succ f, w =>
    let n := w.length
    let x := Nat.xor (Nat.xor (w.getD (n - 3) 0) (w.getD (n - 8) 0))
                     (Nat.xor (w.getD (n - 14) 0) (w.getD (n - 16) 0))
    wExtend f (w ++ [rotl32 1 x])

/-- SHA-1 round function. -/
def sha1F (i b c d : Nat) : Nat :=
  if i < 20 then Nat.lor (Nat.land b c) (Nat.land (Nat.xor 0xFFFFFFFF b) d)
  else if i < 40 then Nat.xor (Nat.xor b c) d
  else if i < 60 then Nat.lor (Nat.lor (Nat.land b c) (Nat.land b d)) (Nat.land c d)
  else Nat.xor (Nat.xor b c) d

/-- SHA-1 round constant. -/
def sha1K (i : Nat) : Nat :=
  if i < 20 then 0x5A827999
  else if i < 40 then 0x6ED9EBA1
  else if i < 60 then 0x8F1BBCDC
  else 0xCA62C1D6

/-- One SHA-1 round step over the state tuple `(a, b, c, d, e)`. -/
def sha1Step (st : Nat × Nat × Nat × Nat × Nat) (iw : Nat × Nat) :
    Nat × Nat × Nat × Nat × Nat :=
  let (a, b, c, d, e) := st
  let (i, wi) := iw
  let temp := (rotl32 5 a + sha1F i b c d + e + sha1K i + wi) % 2 ^ 32
  (temp, a, rotl32 30 b, c, d)

/-- Compress one 64-byte block into the running 5-word state. -/
def sha1Compress (hs : List Nat) (block : List Nat) : List Nat :=
  let w16 := (List.range 16).map (fun i => beWord (block.drop (4 * i)))
  let w := wExtend 64 w16
  let t := (w.enum).foldl sha1Step
    (hs.getD 0 0, hs.getD 1 0, hs.getD 2 0, hs.getD 3 0, hs.getD 4 0)
  [(hs.getD 0 0 + t.1) % 2 ^ 32, (hs.getD 1 0 + t.2.1) % 2 ^ 32,
   (hs.getD 2 0 + t.2.2.1) % 2 ^ 32, (hs.getD 3 0 + t.2.2.2.1) % 2 ^ 32,
   (hs.getD 4 0 + t.2.2.2.2) % 2 ^ 32]

/-- SHA-1 of a byte list: the five 32-bit state words. -/
def sha1 (msg : List Nat) : List Nat :=
  (chunks64 (sha1Pad msg)).foldl sha1Compress
    [0x67452301, 0xEFCDAB89, 0x98BADCFE, 0x10325476, 0xC3D2E1F0]

/-- Lower-case hexadecimal digit for a value below 16. -/
def hexChar : Nat → Char
  | 0 => '0' | 1 => '1' | 2 => '2' | 3 => '3' | 4 => '4'
  | 5 => '5' | 6 => '6' | 7 => '7' | 8 => '8' | 9 => '9'
  | 10 => 'a' | 11 => 'b' | 12 => 'c' | 13 => 'd' | 14 => 'e' | 15 => 'f'
  | _ => '0'

/-- Eight hex digits of one 32-bit word, most significant first. -/
def wordHex (w : Nat) : Str := (List.range 8).map (fun i => hexChar (w / 16 ^ (7 - i) % 16))

/-- Hex digest `hexdigest()`: the 40 lower-case hex characters of a SHA-1 digest. -/
def sha1Hex (msg : List Nat) : Str := ((sha1 msg).map wordHex).flatten

/-! ## Slug deriver: `text_to_fpath` from `src/api.py`

```python
def text_to_fpath(text):
    EXTENSION = ".rem"
    MAX_LEN = 10        # Not including extension
    pattern = re.compile(r'[\W_]+', re.UNICODE) # Restrict to alphanumeric
    alphanum = pattern.sub("", text)
    shortened = alphanum[:MAX_LEN]             # Restrict length
    if len(shortened) < 1 or shortened.isdigit():
        if len(text) > 0:
            shortened = hashlib.sha1(text.encode("utf8", 'replace')).hexdigest()[:MAX_LEN]
        else:
            shortened = "noname"
    fname = shortened + EXTENSION
    fpath = REMIND_DIR.joinpath(fname)
    num_rems = 0
    WIDTH = 3 # Digits
    while fpath.exists():
        fname = shortened[:MAX_LEN-WIDTH] + str(num_rems).zfill(WIDTH) + EXTENSION
        fpath = REMIND_DIR.joinpath(fname)
        num_rems += 1
    return fpath
```
-/

/-- Constant `MAX_LEN = 10` (not including the extension). -/
def MAX_LEN : Nat := 10

/-- Constant `WIDTH = 3`: digits reserved for the collision counter. -/
def WIDTH : Nat := 3

/-- Constant `EXTENSION = ".rem"`. -/
def EXTENSION : Str := lit ".rem"

/-- Stripping step `pattern.sub("", text)` for `pattern = r'[\W_]+'`: drop every character
of the class (non-word or underscore), keeping the rest in order. -/
def alphanumOf (text : Str) : Str := text.filter (fun c => !(inStripClass c))

/-- Decimal representation of a natural number (`str(num_rems)`), with the
recursion fueled by the number itself. -/
def natReprCore : Nat → Nat → Str
  | 0, _ => []
  | Nat.succ f, n =>
    if n < 10 then [hexChar n]
    else natReprCore f (n / 10) ++ [hexChar (n % 10)]

/-- Decimal representation of a natural number (`str(num_rems)`). -/
def natRepr (n : Nat) : Str := natReprCore (n + 1) n

/-- Python `str.zfill(w)` for non-negative numerals: left-pad with zeros to
width `w`. -/
def zfill (w : Nat) (s : Str) : Str := List.replicate (w - s.length) '0' ++ s

/-- The basename chosen before collision avoidance: the first branch of
`text_to_fpath` (strip, truncate, hash fallback, `"noname"` fallback). -/
def deriveBase (text : Str) : Str :=
  let alphanum := alphanumOf text
  let shortened := alphanum.take MAX_LEN
  if shortened.length < 1 || isDigitStr shortened then
    if 0 < text.length then (sha1Hex (utf8Encode text)).take MAX_LEN
    else lit "noname"
  else shortened

/-- The `while fpath.exists()` collision loop of `text_to_fpath`:
`ex` is the directory-existence oracle, `fname` the current candidate,
`num_rems` the counter; `fuel` bounds the number of iterations (the Python
loop is unbounded), with `none` on exhaustion. -/
def remLoop (ex : Str → Bool) (shortened : Str) (fname : Str) (num_rems : Nat) :
    Nat → Option Str
  | 0 => none
  | Nat.succ f =>
    if ex fname then
      remLoop ex shortened
        (shortened.take (MAX_LEN - WIDTH) ++ zfill WIDTH (natRepr num_rems) ++ EXTENSION)
        (num_rems + 1) f
    else some fname

/-- Function `text_to_fpath(text)` from `src/api.py`, returning the filename of the
path it returns.  `ex` models `fpath.exists()` on the reminder directory;
`fuel` bounds the unbounded collision loop. -/
def text_to_fpath (text : Str) (ex : Str → Bool) (fuel : Nat) : Option Str :=
  let shortened := deriveBase text
  remLoop ex shortened (shortened ++ EXTENSION) 0 fuel

/-! ## Reference resolution and listing (`src/api.py`) -/

/-- Lexicographic (code-point) comparison of strings, Python `<=` on `str`. -/
def strLe : Str → Str → Bool
  | [], _ => true
  | _ :: _, [] => false
  | a :: as, b :: bs =>
    if a.toNat < b.toNat then true
    else if a.toNat == b.toNat then strLe as bs
    else false

/-- Insert into a sorted list of strings (helper for `sorted`). -/
def insertSorted (x : Str) : List Str → List Str
  | [] => [x]
  | y :: ys => if strLe x y then x :: y :: ys else y :: insertSorted x ys

/-- Python `sorted` on a list of strings (insertion sort; stable, ascending
by code point). -/
def sortStrs (l : List Str) : List Str := l.foldr insertSorted []

/-- Python `s.endswith(suf)`. -/
def endsWith (s suf : Str) : Bool := s.drop (s.length - suf.length) == suf

/-- Listing `get_reminder_filenames()`: names in the directory ending in `.rem`,
sorted alphabetically.  `dirfiles` models `REMIND_DIR.iterdir()`. -/
def get_reminder_filenames (dirfiles : List Str) : List Str :=
  sortStrs (dirfiles.filter (fun f => endsWith f (lit ".rem")))

/-- Python decimal-digit character (Unicode category Nd), exact for code
points < 0x100: the ASCII digits only.  The Latin-1 superscripts ² ³ ¹
satisfy `str.isdigit` but are not decimal, so `int()` rejects them. -/
def pyIsDecimalChar (c : Char) : Bool := 0x30 ≤ c.toNat && c.toNat ≤ 0x39

/-- Accumulated value of an ASCII-decimal numeral: the number `int(file)`
returns when it succeeds. -/
def digitsToNat (s : Str) : Nat := s.foldl (fun n c => n * 10 + (c.toNat - 0x30)) 0

/-- Python `int(file)`: on a non-empty string of decimal digits it returns
the value, otherwise it raises `ValueError`.  (`resolve_reminder` calls it
only under `file.isdigit()`, so the signed / whitespace-padded /
underscore-grouped forms `int` also accepts cannot occur there and are not
modelled; what can occur is an `isdigit`-true string containing a
non-decimal digit character such as ², on which `int` raises.) -/
def pyInt (s : Str) : Except Str Nat :=
  if !(s.isEmpty) && s.all pyIsDecimalChar then .ok (digitsToNat s)
  else .error (lit "ValueError: invalid literal for int() with base 10")

/-- Function `resolve_reminder(file)` from `src/api.py`: validation, then the
index / literal-name / appended-extension trifurcation.  Errors carry the
Python exception message.  In the all-digit branch the source computes
`int(file)` inside a `try` whose only `except` clause catches `IndexError`,
so a `ValueError` from `int` (superscript digits) propagates uncaught;
the embedding surfaces it as an error with the `ValueError` message. -/
def resolve_reminder (file : Str) (dirfiles : List Str) : Except Str Str :=
  if '/' ∈ file then
    .error (lit "Filename cannot contain character " ++ [squote, '/', squote] ++ lit ".")
  else if '\\' ∈ file then
    .error (lit "Filename cannot contain character " ++ [squote, '\\', squote] ++ lit ".")
  else if '*' ∈ file then
    .error (lit "Filename cannot contain character " ++ [squote, '*', squote] ++ lit ".")
  else if file.head? == some '-' then
    .error (lit "Filename cannot begin with  character " ++ [squote, '-', squote] ++ lit ".")
  else if file.head? == some '+' then
    .error (lit "Filename cannot begin with  character " ++ [squote, '+', squote] ++ lit ".")
  else if file.head? == some '.' then
    .error (lit "Filename cannot begin with  character " ++ [squote, '.', squote] ++ lit ".")
  else if file == [] then
    .error (lit "Filename cannot be empty.")
  else if !(isPrintableStr file) then
    .error (lit "Filename must be printable.")
  else if endsWith file (lit ".rem") then
    .ok file
  else if isDigitStr file then
    match pyInt file with
    | .error e => .error e
    | .ok n =>
      match (get_reminder_filenames dirfiles).get? n with
      | some name => .ok name
      | none => .error (lit "List index out of range")
  else
    .ok (file ++ lit ".rem")

/-- Validator `not_reminder(file)` from `src/api.py`: the `-n` validator.  `ex` models
`path.exists()`. -/
def not_reminder (file : Str) (dirfiles : List Str) (ex : Str → Bool) : Except Str Str :=
  if isDigitStr file then
    .error (lit "Cannot name reminder only digits.")
  else
    match resolve_reminder file dirfiles with
    | .error e => .error e
    | .ok path =>
      if ex path then .error (path ++ lit " is already a reminder file.")
      else .ok path

/-! ## Reminder file operations (`src/api.py`) -/

/-- The reminder directory contents: filename to file content. -/
def FS : Type := Str → Option Str

/-- Function `add_reminder(text, fpath)`: `touch` then write `text` (the touch
creates the file, the write replaces its content with `text`). -/
def add_reminder (text : Str) (fpath : Str) (fs : FS) : FS :=
  fun p => if p = fpath then some text else fs p

/-- Function `get_reminder(path)`: read the whole file; `none` models the `IOError`
when the file does not exist. -/
def get_reminder (fs : FS) (path : Str) : Option Str := fs path

/-- File removal `path.unlink()`: remove the file, `FileNotFoundError` if absent. -/
def unlink (fs : FS) (path : Str) : Except Str FS :=
  match fs path with
  | some _ => .ok (fun q => if q = path then none else fs q)
  | none => .error (lit "FileNotFoundError")

/-- An affirmative deletion-prompt response: `delete_str in ['y', 'Y', '']`. -/
def affirmative (r : Str) : Bool := r == ['y'] || r == ['Y'] || r == []

/-- The unforced branch of `delete_reminders`: prompt per file (the `i`-th
`input()` call returns `responses i`), unlink on an affirmative response,
skip otherwise. -/
def deleteLoop (responses : Nat → Str) : List Str → Nat → FS → Except Str FS
  | [], _, fs => .ok fs
  | f :: rest, i, fs =>
    if affirmative (responses i) then
      match unlink fs f with
      | .ok fs1 => deleteLoop responses rest (i + 1) fs1
      | .error e => .error e
    else deleteLoop responses rest (i + 1) fs

/-- The forced branch of `delete_reminders`: unlink every file. -/
def deleteForce : List Str → FS → Except Str FS
  | [], fs => .ok fs
  | f :: rest, fs =>
    match unlink fs f with
    | .ok fs1 => deleteForce rest fs1
    | .error e => .error e

/-- Function `delete_reminders(files, force)` from `src/api.py`. -/
def delete_reminders (files : List Str) (force : Bool) (responses : Nat → Str)
    (fs : FS) : Except Str FS :=
  if force then deleteForce files fs else deleteLoop responses files 0 fs

/-! ## Reminder set synchronizer (`remindwindows/remindme.py`)

`RemindApplication` holds `self.reminders`, a list of `Reminder` objects;
each `Reminder` stores its path and the text read from the file at
construction time.  `launch()` displays the window ("reminder appeared")
and `close()` retires it ("reminder removed"). -/

/-- A `Reminder` object: backing path and the text read eagerly at
construction. -/
structure Reminder where
  path : Str
  text : Str
deriving DecidableEq

/-- A display-layer signal: `launch()` of a new window or `close()` of an
existing one, tagged with the reminder path. -/
inductive Signal where
  | appeared (p : Str)
  | removed (p : Str)
deriving DecidableEq

/-- Lookup `is_existing_reminder(path)`: the first active reminder whose path
matches, `none` modelling the Python return value `False`. -/
def is_existing_reminder (reminders : List Reminder) (p : Str) : Option Reminder :=
  reminders.find? (fun r => r.path == p)

/-- Handler `file_created(src_path)`: insert a freshly read record (signal
appeared), or — when the path is already active — close the old record
(signal removed), remove it, and insert a freshly read one (signal
appeared).  A failed read (`fs p = none`) models the uncaught exception
from `Reminder.__init__`. -/
def file_created (fs : FS) (reminders : List Reminder) (p : Str) :
    Except Str (List Reminder × List Signal) :=
  match is_existing_reminder reminders p with
  | none =>
    match fs p with
    | some t => .ok (reminders ++ [⟨p, t⟩], [.appeared p])
    | none => .error (lit "read failed")
  | some r =>
    match fs p with
    | some t => .ok (reminders.erase r ++ [⟨p, t⟩], [.removed p, .appeared p])
    | none => .error (lit "read failed")

/-- Handler `file_deleted(src_path)`: close and drop the matching record.  When no
record matches, `is_existing_reminder` returns `False` and the code calls
`False.close()`; the `none` branch models that uncaught `AttributeError`. -/
def file_deleted (reminders : List Reminder) (p : Str) :
    Except Str (List Reminder × List Signal) :=
  match is_existing_reminder reminders p with
  | some r => .ok (reminders.erase r, [.removed p])
  | none =>
    .error (lit "AttributeError: bool object has no attribute close")

/-- A filesystem event delivered by the watcher collaborator. -/
inductive FsEvent where
  | created (p : Str)
  | deleted (p : Str)

/-- Process one event, appending the emitted signals to the log. -/
def processEvent (fs : FS) (st : List Reminder × List Signal) (e : FsEvent) :
    Except Str (List Reminder × List Signal) :=
  match e with
  | .created p =>
    match file_created fs st.1 p with
    | .ok (rs, sigs) => .ok (rs, st.2 ++ sigs)
    | .error e => .error e
  | .deleted p =>
    match file_deleted st.1 p with
    | .ok (rs, sigs) => .ok (rs, st.2 ++ sigs)
    | .error e => .error e

/-- Process a sequence of events in order. -/
def processEvents (fs : FS) : List Reminder × List Signal → List FsEvent →
    Except Str (List Reminder × List Signal)
  | st, [] => .ok st
  | st, e :: es =>
    match processEvent fs st e with
    | .ok st1 => processEvents fs st1 es
    | .error msg => .error msg

/-! ## Predicates and fixtures used by the claims -/

/-- A character of the class `[A-Za-z0-9]` (the ASCII alphanumerics named in
the specification). -/
def asciiAlnum (c : Char) : Bool :=
  let v := c.toNat
  (0x30 ≤ v && v ≤ 0x39) || (0x41 ≤ v && v ≤ 0x5A) || (0x61 ≤ v && v ≤ 0x7A)

/-- Directory-existence oracle holding `abcdefghij.rem` and all 1000 names
`abcdefgNNN.rem` with a three-digit `NNN` (each such name has length 14). -/
def overflowOracle : Str → Bool := fun s =>
  (s.length == 14 && s.take 7 == lit "abcdefg" && endsWith s (lit ".rem")) ||
  s == lit "abcdefghij.rem"

/-! ## Helper lemmas -/

/-- Keeping a character under `[\W_]+`-stripping is exactly Python
alphanumericity. -/
theorem not_inStripClass_eq (c : Char) : (!(inStripClass c)) = pyIsAlnum c := by
  unfold inStripClass pyWordChar
  by_cases h : c = '_'
  · subst h; decide
  · have hb : (c == '_') = false := by
      simp [beq_eq_false_iff_ne, h]
    simp [hb]

/-- The stripped text is the Python-alphanumeric filtering of the text. -/
theorem alphanumOf_eq_filter (text : Str) :
    alphanumOf text = text.filter pyIsAlnum := by
  unfold alphanumOf
  congr 1
  funext c
  exact not_inStripClass_eq c

/-- Every output of `hexChar` is an ASCII alphanumeric character. -/
theorem hexChar_asciiAlnum (n : Nat) : asciiAlnum (hexChar n) = true := by
  rcases n with _|_|_|_|_|_|_|_|_|_|_|_|_|_|_|_|n <;> rfl

/-- The compression function always returns a five-word state. -/
theorem sha1Compress_length (hs block : List Nat) :
    (sha1Compress hs block).length = 5 := rfl

/-- A SHA-1 digest has five words. -/
theorem sha1_foldl_length (blocks : List (List Nat)) (hs : List Nat) :
    hs.length = 5 → (blocks.foldl sha1Compress hs).length = 5 := by
  induction blocks generalizing hs with
  | nil => intro h; exact h
  | cons b bs ih =>
    intro _
    rw [List.foldl_cons]
    exact ih _ (sha1Compress_length _ _)

/-- A SHA-1 digest has five words. -/
theorem sha1_length (msg : List Nat) : (sha1 msg).length = 5 :=
  sha1_foldl_length _ _ rfl

/-- Eight hex characters per word. -/
theorem wordHex_length (w : Nat) : (wordHex w).length = 8 := by
  simp [wordHex]

/-- A SHA-1 hex digest has forty characters. -/
theorem sha1Hex_length (msg : List Nat) : (sha1Hex msg).length = 40 := by
  unfold sha1Hex
  rw [List.length_flatten, List.map_map]
  have h1 : (List.length ∘ wordHex) = fun _ => 8 := by
    funext w; exact wordHex_length w
  rw [h1, List.map_const', List.sum_replicate, sha1_length]
  rfl

/-- Every character of a SHA-1 hex digest is ASCII alphanumeric. -/
theorem sha1Hex_all_alnum (msg : List Nat) : (sha1Hex msg).all asciiAlnum = true := by
  rw [List.all_eq_true]
  intro c hc
  unfold sha1Hex at hc
  rw [List.mem_flatten] at hc
  obtain ⟨l, hl, hcl⟩ := hc
  rw [List.mem_map] at hl
  obtain ⟨w, _, rfl⟩ := hl
  unfold wordHex at hcl
  rw [List.mem_map] at hcl
  obtain ⟨i, _, rfl⟩ := hcl
  exact hexChar_asciiAlnum _

/-- Unfolding equation for `natReprCore` at positive fuel. -/
theorem natReprCore_succ (f n : Nat) :
    natReprCore (Nat.succ f) n =
      if n < 10 then [hexChar n] else natReprCore f (n / 10) ++ [hexChar (n % 10)] := rfl

/-- A one-digit number prints as one character, at any positive fuel. -/
theorem natReprCore_single (f n : Nat) (hn : n < 10) (hf : 1 ≤ f) :
    natReprCore f n = [hexChar n] := by
  match f, hf with
  | Nat.succ f, _ => rw [natReprCore_succ, if_pos hn]

/-- Every character printed by `natReprCore` is ASCII alphanumeric. -/
theorem natReprCore_all_alnum (f n : Nat) :
    (natReprCore f n).all asciiAlnum = true := by
  induction f generalizing n with
  | zero => rfl
  | succ f ih =>
    rw [natReprCore_succ]
    by_cases h : n < 10
    · rw [if_pos h]
      simp [hexChar_asciiAlnum]
    · rw [if_neg h, List.all_append]
      simp [ih, hexChar_asciiAlnum]

/-- A decimal numeral for a number below 1000 has at most three digits. -/
theorem natRepr_length_le (n : Nat) (hn : n ≤ 999) : (natRepr n).length ≤ 3 := by
  unfold natRepr
  by_cases h1 : n < 10
  · rw [natReprCore_single _ _ h1 (by omega)]
    simp
  · by_cases h2 : n < 100
    · have : natReprCore (n + 1) n = natReprCore n (n / 10) ++ [hexChar (n % 10)] := by
        rw [natReprCore_succ, if_neg h1]
      rw [this, natReprCore_single n (n / 10) (by omega) (by omega)]
      simp
    · have e1 : natReprCore (n + 1) n = natReprCore n (n / 10) ++ [hexChar (n % 10)] := by
        rw [natReprCore_succ, if_neg h1]
      have e2 := natReprCore_succ (n - 1) (n / 10)
      rw [show Nat.succ (n - 1) = n from by omega, if_neg (by omega)] at e2
      rw [e1, e2, natReprCore_single (n - 1) (n / 10 / 10) (by omega) (by omega)]
      simp

/-- Length of `zfill`. -/
theorem zfill_length (w : Nat) (s : Str) : (zfill w s).length = max w s.length := by
  unfold zfill
  rw [List.length_append, List.length_replicate]
  omega

/-- Characters of `zfill` output: padding zeros or characters of the numeral. -/
theorem zfill_all_alnum (w : Nat) (s : Str) (hs : s.all asciiAlnum = true) :
    (zfill w s).all asciiAlnum = true := by
  unfold zfill
  rw [List.all_append, hs]
  have : (List.replicate (w - s.length) '0').all asciiAlnum = true := by
    rw [List.all_eq_true]
    intro c hc
    rw [List.mem_replicate] at hc
    rw [hc.2]
    decide
  rw [this]
  rfl

/-- Shape of any value returned by the collision loop: either the initial
candidate, or a truncated base plus a zero-padded counter (bounded by the
fuel) plus the extension. -/
theorem remLoop_shape (fuel : Nat) (ex : Str → Bool) (shortened : Str) :
    ∀ fname n r, remLoop ex shortened fname n fuel = some r →
      r = fname ∨ ∃ m, n ≤ m ∧ m + 2 ≤ n + fuel ∧
        r = shortened.take (MAX_LEN - WIDTH) ++ zfill WIDTH (natRepr m) ++ EXTENSION := by
  induction fuel with
  | zero => intro fname n r h; exact absurd h (by simp [remLoop])
  | succ f ih =>
    intro fname n r h
    unfold remLoop at h
    by_cases hex : ex fname
    · rw [if_pos hex] at h
      match f, h with
      | Nat.succ f1, h =>
        rcases ih _ _ _ h with h1 | ⟨m, hm1, hm2, hm3⟩
        · right
          exact ⟨n, le_refl n, by omega, h1⟩
        · right
          exact ⟨m, by omega, by omega, hm3⟩
    · rw [if_neg hex] at h
      left
      exact (Option.some_injective _ h).symm

/-- On ASCII characters, Python alphanumericity coincides with
`[A-Za-z0-9]`. -/
theorem pyIsAlnum_ascii (c : Char) (h : c.toNat < 0x80) :
    pyIsAlnum c = asciiAlnum c := by
  unfold pyIsAlnum asciiAlnum
  simp only [Bool.or_eq_true, Bool.and_eq_true, decide_eq_true_eq, beq_iff_eq,
    Bool.not_eq_eq_eq_not, Bool.not_true]
  rw [Bool.eq_iff_iff]
  simp only [Bool.or_eq_true, Bool.and_eq_true, decide_eq_true_eq, beq_iff_eq]
  omega

/-- The base chosen by `text_to_fpath` before collision avoidance is
non-empty and at most `MAX_LEN` characters long. -/
theorem deriveBase_ne_nil_and_le (text : Str) :
    deriveBase text ≠ [] ∧ (deriveBase text).length ≤ MAX_LEN := by
  unfold deriveBase
  by_cases hb : ((alphanumOf text).take MAX_LEN).length < 1 ||
      isDigitStr ((alphanumOf text).take MAX_LEN)
  · rw [if_pos hb]
    by_cases ht : 0 < text.length
    · rw [if_pos ht]
      constructor
      · intro hnil
        have := congrArg List.length hnil
        rw [List.length_take, sha1Hex_length] at this
        simp [MAX_LEN] at this
      · rw [List.length_take]
        exact min_le_left _ _
    · rw [if_neg ht]
      exact ⟨by decide, by decide⟩
  · rw [if_neg hb]
    constructor
    · intro hnil
      rw [hnil] at hb
      exact hb (by decide)
    · rw [List.length_take]
      exact min_le_left _ _

/-- For ASCII input text, every character of the chosen base is in
`[A-Za-z0-9]`. -/
theorem deriveBase_all_alnum (text : Str) (hascii : ∀ c ∈ text, c.toNat < 0x80) :
    (deriveBase text).all asciiAlnum = true := by
  unfold deriveBase
  by_cases hb : ((alphanumOf text).take MAX_LEN).length < 1 ||
      isDigitStr ((alphanumOf text).take MAX_LEN)
  · rw [if_pos hb]
    by_cases ht : 0 < text.length
    · rw [if_pos ht, List.all_eq_true]
      intro c hc
      exact (List.all_eq_true.mp (sha1Hex_all_alnum _)) c (List.mem_of_mem_take hc)
    · rw [if_neg ht]
      decide
  · rw [if_neg hb, List.all_eq_true]
    intro c hc
    have hmem : c ∈ alphanumOf text := List.mem_of_mem_take hc
    rw [alphanumOf_eq_filter, List.mem_filter] at hmem
    rw [← pyIsAlnum_ascii c (hascii c hmem.1)]
    exact hmem.2

/-! ## Claim theorems -/

/-- C1: the claim says `Deleted(p)` for a `p` absent from the active set is
a no-op that emits no signal and raises no error.  The code instead calls
`close()` on the `False` returned by `is_existing_reminder`, raising an
`AttributeError`: for every active set and path with no matching record,
`file_deleted` faults instead of returning the set unchanged. -/
theorem C1_file_deleted_missing_path_faults (reminders : List Reminder) (p : Str)
    (h : is_existing_reminder reminders p = none) :
    file_deleted reminders p =
      Except.error (lit "AttributeError: bool object has no attribute close") := by
  unfold file_deleted
  rw [h]

/-- C1 witness: deleting `x.rem` when the active set is empty faults. -/
theorem C1_file_deleted_missing_path_faults_witness :
    file_deleted [] (lit "x.rem") =
      Except.error (lit "AttributeError: bool object has no attribute close") :=
  C1_file_deleted_missing_path_faults [] (lit "x.rem") rfl

/-- C2: the claim says that for text made solely of non-alphanumeric
characters the basename is never composed entirely of digits.  The code's
hash fallback is not re-checked: for the all-punctuation text `"@~"`
(every character non-alphanumeric), `text_to_fpath` on an empty directory
returns basename `4586424766` — the first ten hex characters of
`sha1("@~")` — which is all digits. -/
theorem C2_hash_fallback_all_digit_basename :
    (lit "@~").all (fun c => !(pyIsAlnum c)) = true ∧
    text_to_fpath (lit "@~") (fun _ => false) 1 = some (lit "4586424766" ++ EXTENSION) ∧
    isDigitStr (lit "4586424766") = true := by
  refine ⟨by decide, ?_, by decide⟩
  decide

/-- C8: round-trip — writing reminder text with `add_reminder` and reading
it back with `get_reminder` at the same path returns the text unchanged,
for any printable non-empty text not starting with a dash. -/
theorem C8_roundtrip (fs : FS) (text fpath : Str)
    (hne : text ≠ []) (hpr : isPrintableStr text = true)
    (hdash : text.head? ≠ some '-') :
    get_reminder (add_reminder text fpath fs) fpath = some text := by
  unfold get_reminder add_reminder
  rw [if_pos rfl]

/-- C8 witness: the round-trip at a concrete text and path. -/
theorem C8_roundtrip_witness :
    get_reminder (add_reminder (lit "buy milk") (lit "buymilk.rem") (fun _ => none))
      (lit "buymilk.rem") = some (lit "buy milk") :=
  C8_roundtrip (fun _ => none) (lit "buy milk") (lit "buymilk.rem")
    (by decide) (by decide) (by decide)

/-- C10: an all-digit explicit filename is rejected by the `-n` validator
`not_reminder` with message `Cannot name reminder only digits.`, for every
directory listing and every existence oracle — in particular before any
existence check is consulted. -/
theorem C10_digit_name_rejected (file : Str) (dirfiles : List Str) (ex : Str → Bool)
    (h : isDigitStr file = true) :
    not_reminder file dirfiles ex = Except.error (lit "Cannot name reminder only digits.") := by
  unfold not_reminder
  rw [if_pos h]

/-- C10 witness: the validator rejects `123` regardless of the directory. -/
theorem C10_digit_name_rejected_witness :
    not_reminder (lit "123") [] (fun _ => true) =
      Except.error (lit "Cannot name reminder only digits.") :=
  C10_digit_name_rejected (lit "123") [] (fun _ => true) (by decide)

/-- C5: from an empty active set, the events `Created(a.rem)`,
`Created(a.rem)`, `Deleted(a.rem)` (with `a.rem` readable throughout)
produce exactly the signals appeared, removed, appeared, removed — one
appeared from the first create, removed-then-appeared from the re-create,
and removed from the delete — and leave the active set empty. -/
theorem C5_created_created_deleted (fs : FS) (t : Str)
    (h : fs (lit "a.rem") = some t) :
    processEvents fs ([], [])
      [FsEvent.created (lit "a.rem"), FsEvent.created (lit "a.rem"),
       FsEvent.deleted (lit "a.rem")] =
      Except.ok ([], [Signal.appeared (lit "a.rem"), Signal.removed (lit "a.rem"),
        Signal.appeared (lit "a.rem"), Signal.removed (lit "a.rem")]) := by
  simp [processEvents, processEvent, file_created, file_deleted,
    is_existing_reminder, h, List.find?, List.erase]

/-- C5 witness: the scenario with concrete file content. -/
theorem C5_created_created_deleted_witness :
    processEvents (fun p => if p = lit "a.rem" then some (lit "hello") else none) ([], [])
      [FsEvent.created (lit "a.rem"), FsEvent.created (lit "a.rem"),
       FsEvent.deleted (lit "a.rem")] =
      Except.ok ([], [Signal.appeared (lit "a.rem"), Signal.removed (lit "a.rem"),
        Signal.appeared (lit "a.rem"), Signal.removed (lit "a.rem")]) :=
  C5_created_created_deleted _ (lit "hello") (by decide)

/-- C4 counterexample: the text `abcdefghijk` has eleven distinct
alphanumeric characters; `text_to_fpath` on an empty directory takes
neither the hash branch (the base is the stripped text itself) nor the
collision branch (no suffix is appended), yet the returned basename
`abcdefghij` loses the character `k`, so the alphanumeric-character sets
of input and basename differ, contradicting the claim. -/
theorem C4_truncation_drops_characters :
    deriveBase (lit "abcdefghijk") = lit "abcdefghij" ∧
    text_to_fpath (lit "abcdefghijk") (fun _ => false) 1 =
      some (lit "abcdefghij" ++ EXTENSION) ∧
    2 ≤ ((lit "abcdefghijk").filter pyIsAlnum).dedup.length ∧
    'k' ∈ (lit "abcdefghijk").filter pyIsAlnum ∧
    'k' ∉ (lit "abcdefghij").filter pyIsAlnum := by
  refine ⟨by decide, by decide, by decide, by decide, by decide⟩

/-- C4 amended: for text with at least two distinct alphanumeric
characters **and at most `MAX_LEN` alphanumeric characters in total**,
when the hash branch is not taken (the stripped text is not all digits)
and the collision branch is not taken (the first candidate is unused),
the returned basename's set of alphanumeric characters equals the input's.
-/
theorem C4_amended_alnum_set_preserved (text : Str) (ex : Str → Bool) (fuel : Nat)
    (hdistinct : 2 ≤ ((text.filter pyIsAlnum).dedup).length)
    (hshort : (alphanumOf text).length ≤ MAX_LEN)
    (hnotdigit : isDigitStr (alphanumOf text) = false)
    (hnocollide : ex (deriveBase text ++ EXTENSION) = false)
    (hfuel : 1 ≤ fuel) :
    text_to_fpath text ex fuel = some (deriveBase text ++ EXTENSION) ∧
    ∀ c, (c ∈ (deriveBase text).filter pyIsAlnum ↔ c ∈ text.filter pyIsAlnum) := by
  have htake : (alphanumOf text).take MAX_LEN = alphanumOf text :=
    List.take_of_length_le hshort
  have hne : alphanumOf text ≠ [] := by
    intro hnil
    rw [alphanumOf_eq_filter] at hnil
    rw [hnil] at hdistinct
    simp at hdistinct
  have hlen : decide ((alphanumOf text).length < 1) = false := by
    simp only [decide_eq_false_iff_not]
    intro h
    exact hne (List.eq_nil_of_length_eq_zero (by omega))
  have hbase : deriveBase text = text.filter pyIsAlnum := by
    unfold deriveBase
    simp only []
    rw [htake, hlen, hnotdigit, alphanumOf_eq_filter]
    simp
  constructor
  · unfold text_to_fpath
    match fuel, hfuel with
    | Nat.succ f, _ =>
      unfold remLoop
      rw [hnocollide]
      simp
  · intro c
    rw [hbase]
    simp only [List.mem_filter]
    tauto

/-- C4 amended witness: the text `ab` keeps its alphanumeric set. -/
theorem C4_amended_alnum_set_preserved_witness :
    text_to_fpath (lit "ab") (fun _ => false) 1 =
      some (deriveBase (lit "ab") ++ EXTENSION) ∧
    ∀ c, (c ∈ (deriveBase (lit "ab")).filter pyIsAlnum ↔ c ∈ (lit "ab").filter pyIsAlnum) :=
  C4_amended_alnum_set_preserved (lit "ab") (fun _ => false) 1
    (by decide) (by decide) (by decide) (by decide) (by decide)

/-- C3 counterexample: with `abcdefghij.rem` and all of `abcdefg000.rem` …
`abcdefg999.rem` already present (1001 files, as `overflowOracle` reports),
deriving a name for the text `abcdefghij` runs the collision counter to
1000 and returns basename `abcdefg1000`, which is 11 characters long —
exceeding the configured maximum of 10 and contradicting the claim's
length bound. -/
theorem C3_counter_overflow_exceeds_max_len :
    text_to_fpath (lit "abcdefghij") overflowOracle 1002 =
      some (lit "abcdefg1000" ++ EXTENSION) ∧
    MAX_LEN < (lit "abcdefg1000").length := by
  refine ⟨by decide, by decide⟩

/-- C3 amended: for ASCII input text, whenever `text_to_fpath` returns
within 1001 probes (so the collision counter stays below 1000), the
returned filename is a non-empty basename of at most `MAX_LEN` characters,
all in `[A-Za-z0-9]`, followed by the fixed `.rem` extension.  (The
original claim fails in two ways: with 1001 colliding files the counter
reaches 1000 and the basename grows to 11 characters, and non-ASCII
letters such as é survive stripping, so the `[A-Za-z0-9]` character-set
bound also needs the ASCII restriction.) -/
theorem C3_amended_basename_shape (text : Str) (ex : Str → Bool) (fuel : Nat)
    (fname : Str) (hascii : ∀ c ∈ text, c.toNat < 0x80) (hfuel : fuel ≤ 1001)
    (h : text_to_fpath text ex fuel = some fname) :
    ∃ b, fname = b ++ EXTENSION ∧ b ≠ [] ∧ b.all asciiAlnum = true ∧
      b.length ≤ MAX_LEN := by
  unfold text_to_fpath at h
  rcases remLoop_shape fuel ex (deriveBase text) _ _ _ h with h1 | ⟨m, _, hm2, h3⟩
  · exact ⟨deriveBase text, h1, (deriveBase_ne_nil_and_le text).1,
      deriveBase_all_alnum text hascii, (deriveBase_ne_nil_and_le text).2⟩
  · have hm : m ≤ 999 := by omega
    have hzlen : (zfill WIDTH (natRepr m)).length = 3 := by
      rw [zfill_length]
      have := natRepr_length_le m hm
      unfold WIDTH
      omega
    refine ⟨(deriveBase text).take (MAX_LEN - WIDTH) ++ zfill WIDTH (natRepr m),
      h3, ?_, ?_, ?_⟩
    · intro hnil
      have := congrArg List.length hnil
      rw [List.length_append, hzlen] at this
      simp at this
    · rw [List.all_append]
      have h1 : ((deriveBase text).take (MAX_LEN - WIDTH)).all asciiAlnum = true := by
        rw [List.all_eq_true]
        intro c hc
        exact (List.all_eq_true.mp (deriveBase_all_alnum text hascii)) c
          (List.mem_of_mem_take hc)
      have h2 : (zfill WIDTH (natRepr m)).all asciiAlnum = true :=
        zfill_all_alnum _ _ (natReprCore_all_alnum _ _)
      rw [h1, h2]
      rfl
    · rw [List.length_append, hzlen, List.length_take]
      have := (deriveBase_ne_nil_and_le text).2
      unfold MAX_LEN WIDTH at *
      omega

/-- C3 amended witness: the text `hi` on an empty directory yields the
basename `hi` with the `.rem` extension. -/
theorem C3_amended_basename_shape_witness :
    ∃ b, lit "hi.rem" = b ++ EXTENSION ∧ b ≠ [] ∧ b.all asciiAlnum = true ∧
      b.length ≤ MAX_LEN :=
  C3_amended_basename_shape (lit "hi") (fun _ => false) 1 (lit "hi.rem")
    (by decide) (by decide) (by decide)

/-- Unfolding equation of the collision loop at positive fuel. -/
theorem remLoop_succ (ex : Str → Bool) (s fname : Str) (n f : Nat) :
    remLoop ex s fname n (f + 1) =
      if ex fname then
        remLoop ex s (s.take (MAX_LEN - WIDTH) ++ zfill WIDTH (natRepr n) ++ EXTENSION)
          (n + 1) f
      else some fname := rfl

/-- C6 counterexample: for the text `abcdefg000` (whose base is the
10-character `abcdefg000`, equal to its own 7-character truncation plus
`000`), the second derivation does not get the `000` counter the claim
predicts: the `000` candidate is the already-taken first name, so the
second derivation returns `abcdefg001.rem` instead. -/
theorem C6_base_ending_000_skips_counter :
    deriveBase (lit "abcdefg000") = lit "abcdefg000" ∧
    text_to_fpath (lit "abcdefg000") (fun _ => false) 3 =
      some (lit "abcdefg000" ++ EXTENSION) ∧
    (lit "abcdefg000").take (MAX_LEN - WIDTH) ++ lit "000" ++ EXTENSION =
      lit "abcdefg000" ++ EXTENSION ∧
    text_to_fpath (lit "abcdefg000") (fun s => s == lit "abcdefg000" ++ EXTENSION) 3 =
      some (lit "abcdefg001" ++ EXTENSION) ∧
    lit "abcdefg001" ++ EXTENSION ≠
      (lit "abcdefg000").take (MAX_LEN - WIDTH) ++ lit "000" ++ EXTENSION := by
  refine ⟨by decide, by decide, by decide, by decide, by decide⟩

/-- C6 amended: deriving a filename for the same text three times, adding
each returned name to the existing set, yields three distinct names — the
first unsuffixed, the next two with counters `000` and `001` — **provided
the base itself is not equal to its 7-character truncation plus `000` or
plus `001`** (otherwise a counter candidate collides with an earlier name
and a later counter is used). -/
theorem C6_amended_three_derivations (text : Str)
    (h0 : deriveBase text ≠ (deriveBase text).take (MAX_LEN - WIDTH) ++ lit "000")
    (h1 : deriveBase text ≠ (deriveBase text).take (MAX_LEN - WIDTH) ++ lit "001") :
    text_to_fpath text (fun _ => false) 3 = some (deriveBase text ++ EXTENSION) ∧
    text_to_fpath text (fun s => s == deriveBase text ++ EXTENSION) 3 =
      some ((deriveBase text).take (MAX_LEN - WIDTH) ++ lit "000" ++ EXTENSION) ∧
    text_to_fpath text
      (fun s => s == deriveBase text ++ EXTENSION ||
        s == (deriveBase text).take (MAX_LEN - WIDTH) ++ lit "000" ++ EXTENSION) 3 =
      some ((deriveBase text).take (MAX_LEN - WIDTH) ++ lit "001" ++ EXTENSION) ∧
    deriveBase text ++ EXTENSION ≠
      (deriveBase text).take (MAX_LEN - WIDTH) ++ lit "000" ++ EXTENSION ∧
    deriveBase text ++ EXTENSION ≠
      (deriveBase text).take (MAX_LEN - WIDTH) ++ lit "001" ++ EXTENSION ∧
    (deriveBase text).take (MAX_LEN - WIDTH) ++ lit "000" ++ EXTENSION ≠
      (deriveBase text).take (MAX_LEN - WIDTH) ++ lit "001" ++ EXTENSION := by
  set b := deriveBase text with hb
  have hz0 : zfill WIDTH (natRepr 0) = lit "000" := by decide
  have hz1 : zfill WIDTH (natRepr 1) = lit "001" := by decide
  have hne1 : b ++ EXTENSION ≠ b.take (MAX_LEN - WIDTH) ++ lit "000" ++ EXTENSION := by
    intro heq
    exact h0 (List.append_cancel_right heq)
  have hne2 : b ++ EXTENSION ≠ b.take (MAX_LEN - WIDTH) ++ lit "001" ++ EXTENSION := by
    intro heq
    exact h1 (List.append_cancel_right heq)
  have hne3 : b.take (MAX_LEN - WIDTH) ++ lit "000" ++ EXTENSION ≠
      b.take (MAX_LEN - WIDTH) ++ lit "001" ++ EXTENSION := by
    intro heq
    have := List.append_cancel_left (List.append_cancel_right heq)
    exact absurd this (by decide)
  refine ⟨?_, ?_, ?_, hne1, hne2, hne3⟩
  · unfold text_to_fpath
    rw [show (3 : Nat) = 2 + 1 from rfl, remLoop_succ]
    simp
  · have hc1 : ((b.take (MAX_LEN - WIDTH) ++ lit "000" ++ EXTENSION) ==
        (b ++ EXTENSION)) = false :=
      beq_eq_false_iff_ne.mpr (fun heq => hne1 heq.symm)
    unfold text_to_fpath
    rw [show (3 : Nat) = 2 + 1 from rfl, remLoop_succ, ← hb]
    rw [if_pos (beq_self_eq_true _), hz0]
    rw [show (2 : Nat) = 1 + 1 from rfl, remLoop_succ]
    simp only [hc1]
    simp
  · have hc2 : ((b.take (MAX_LEN - WIDTH) ++ lit "001" ++ EXTENSION) ==
        (b ++ EXTENSION)) = false :=
      beq_eq_false_iff_ne.mpr (fun heq => hne2 heq.symm)
    have hc3 : ((b.take (MAX_LEN - WIDTH) ++ lit "001" ++ EXTENSION) ==
        (b.take (MAX_LEN - WIDTH) ++ lit "000" ++ EXTENSION)) = false :=
      beq_eq_false_iff_ne.mpr (fun heq => hne3 heq.symm)
    unfold text_to_fpath
    rw [show (3 : Nat) = 2 + 1 from rfl, remLoop_succ, ← hb]
    simp only [beq_self_eq_true, Bool.true_or, if_true, hz0]
    rw [show (2 : Nat) = 1 + 1 from rfl, remLoop_succ]
    simp only [beq_self_eq_true, Bool.or_true, if_true, hz1]
    rw [show (1 : Nat) = 0 + 1 from rfl, remLoop_succ]
    simp only [hc2, hc3, Bool.or_self, Bool.or_false]
    simp

/-- C6 amended witness: three derivations for `reminder12` give
`reminder12.rem`, `reminde000.rem`, `reminde001.rem`. -/
theorem C6_amended_three_derivations_witness :
    text_to_fpath (lit "reminder12") (fun _ => false) 3 =
      some (deriveBase (lit "reminder12") ++ EXTENSION) ∧
    text_to_fpath (lit "reminder12")
      (fun s => s == deriveBase (lit "reminder12") ++ EXTENSION) 3 =
      some ((deriveBase (lit "reminder12")).take (MAX_LEN - WIDTH) ++ lit "000" ++
        EXTENSION) ∧
    text_to_fpath (lit "reminder12")
      (fun s => s == deriveBase (lit "reminder12") ++ EXTENSION ||
        s == (deriveBase (lit "reminder12")).take (MAX_LEN - WIDTH) ++ lit "000" ++
          EXTENSION) 3 =
      some ((deriveBase (lit "reminder12")).take (MAX_LEN - WIDTH) ++ lit "001" ++
        EXTENSION) ∧
    deriveBase (lit "reminder12") ++ EXTENSION ≠
      (deriveBase (lit "reminder12")).take (MAX_LEN - WIDTH) ++ lit "000" ++ EXTENSION ∧
    deriveBase (lit "reminder12") ++ EXTENSION ≠
      (deriveBase (lit "reminder12")).take (MAX_LEN - WIDTH) ++ lit "001" ++ EXTENSION ∧
    (deriveBase (lit "reminder12")).take (MAX_LEN - WIDTH) ++ lit "000" ++ EXTENSION ≠
      (deriveBase (lit "reminder12")).take (MAX_LEN - WIDTH) ++ lit "001" ++ EXTENSION :=
  C6_amended_three_derivations (lit "reminder12") (by decide) (by decide)

/-- C7 counterexample: the reference `.rem` ends with the reminder
extension, so by the claim it should resolve to that literal filename; the
code instead rejects it during validation (leading `.`), so the claimed
trifurcation does not hold for every reference argument. -/
theorem C7_dotrem_rejected_not_resolved :
    endsWith (lit ".rem") (lit ".rem") = true ∧
    resolve_reminder (lit ".rem") [] =
      Except.error (lit "Filename cannot begin with  character " ++
        [squote, '.', squote] ++ lit ".") := by
  refine ⟨by decide, by rfl⟩

/-- C7 amended: for every reference that passes validation (no `/`, `\`,
`*`; does not start with `-`, `+`, `.`; non-empty; printable), resolution
follows the claimed rule with one further split in the all-digit case: a
name ending in `.rem` resolves literally; an all-digit name made of ASCII
decimal digits is a zero-based index into the sorted `.rem` listing, with
the error `List index out of range` when the index is at least the listing
length; an all-digit name containing a non-decimal digit character (such
as the superscript ², accepted by `str.isdigit` but rejected by `int`)
raises an uncaught `ValueError`; anything else gets `.rem` appended. -/
theorem C7_amended_ref_resolution (file : Str) (dirfiles : List Str)
    (h1 : '/' ∉ file) (h2 : '\\' ∉ file) (h3 : '*' ∉ file)
    (h4 : file.head? ≠ some '-') (h5 : file.head? ≠ some '+')
    (h6 : file.head? ≠ some '.') (h7 : file ≠ []) (h8 : isPrintableStr file = true) :
    (endsWith file (lit ".rem") = true → resolve_reminder file dirfiles = Except.ok file) ∧
    (endsWith file (lit ".rem") = false → isDigitStr file = true →
      (file.all pyIsDecimalChar = true →
        (digitsToNat file < (get_reminder_filenames dirfiles).length →
          resolve_reminder file dirfiles =
            Except.ok ((get_reminder_filenames dirfiles).getD (digitsToNat file) [])) ∧
        ((get_reminder_filenames dirfiles).length ≤ digitsToNat file →
          resolve_reminder file dirfiles = Except.error (lit "List index out of range"))) ∧
      (file.all pyIsDecimalChar = false →
        resolve_reminder file dirfiles =
          Except.error (lit "ValueError: invalid literal for int() with base 10"))) ∧
    (endsWith file (lit ".rem") = false → isDigitStr file = false →
      resolve_reminder file dirfiles = Except.ok (file ++ lit ".rem")) := by
  have hb4 : (file.head? == some '-') = false := beq_eq_false_iff_ne.mpr h4
  have hb5 : (file.head? == some '+') = false := beq_eq_false_iff_ne.mpr h5
  have hb6 : (file.head? == some '.') = false := beq_eq_false_iff_ne.mpr h6
  have hb7 : (file == []) = false := beq_eq_false_iff_ne.mpr h7
  unfold resolve_reminder
  rw [if_neg h1, if_neg h2, if_neg h3, hb4, hb5, hb6, hb7, h8]
  simp only [Bool.not_true, if_false, Bool.false_eq_true]
  refine ⟨?_, ?_, ?_⟩
  · intro hrem
    rw [hrem]
    simp
  · intro hrem hdig
    rw [hrem, hdig]
    simp only [Bool.false_eq_true, if_false, if_true]
    have hnempty : file.isEmpty = false := by
      unfold isDigitStr at hdig
      cases he : file.isEmpty with
      | false => rfl
      | true =>
        rw [he] at hdig
        simp at hdig
    refine ⟨?_, ?_⟩
    · intro hdec
      have hok : pyInt file = Except.ok (digitsToNat file) := by
        unfold pyInt
        rw [hnempty, hdec]
        rfl
      constructor
      · intro hlt
        cases hg : (get_reminder_filenames dirfiles).get? (digitsToNat file) with
        | none =>
          rw [List.get?_eq_none] at hg
          omega
        | some name =>
          rw [List.get?_eq_getElem?] at hg
          simp [hok, hg]
      · intro hge
        have hg : (get_reminder_filenames dirfiles).get? (digitsToNat file) = none :=
          List.get?_eq_none.mpr hge
        rw [List.get?_eq_getElem?] at hg
        simp [hok, hg]
    · intro hdec
      have herr : pyInt file =
          Except.error (lit "ValueError: invalid literal for int() with base 10") := by
        unfold pyInt
        rw [hnempty, hdec]
        rfl
      simp [herr]
  · intro hrem hdig
    rw [hrem, hdig]
    simp

/-- C7 amended witness: the reference `0` against a directory holding
`a.rem` resolves by index. -/
theorem C7_amended_ref_resolution_witness :
    (endsWith (lit "0") (lit ".rem") = true →
      resolve_reminder (lit "0") [lit "a.rem"] = Except.ok (lit "0")) ∧
    (endsWith (lit "0") (lit ".rem") = false → isDigitStr (lit "0") = true →
      ((lit "0").all pyIsDecimalChar = true →
        (digitsToNat (lit "0") < (get_reminder_filenames [lit "a.rem"]).length →
          resolve_reminder (lit "0") [lit "a.rem"] =
            Except.ok ((get_reminder_filenames [lit "a.rem"]).getD (digitsToNat (lit "0")) [])) ∧
        ((get_reminder_filenames [lit "a.rem"]).length ≤ digitsToNat (lit "0") →
          resolve_reminder (lit "0") [lit "a.rem"] =
            Except.error (lit "List index out of range"))) ∧
      ((lit "0").all pyIsDecimalChar = false →
        resolve_reminder (lit "0") [lit "a.rem"] =
          Except.error (lit "ValueError: invalid literal for int() with base 10"))) ∧
    (endsWith (lit "0") (lit ".rem") = false → isDigitStr (lit "0") = false →
      resolve_reminder (lit "0") [lit "a.rem"] = Except.ok (lit "0" ++ lit ".rem")) :=
  C7_amended_ref_resolution (lit "0") [lit "a.rem"] (by decide) (by decide) (by decide)
    (by decide) (by decide) (by decide) (by decide) (by decide)

/-- Specification of the unforced deletion loop: with pairwise-distinct,
present files, the loop succeeds; each file is unlinked exactly when its
prompt response is affirmative, and no other path changes. -/
theorem deleteLoop_spec (responses : Nat → Str) :
    ∀ (files : List Str) (i : Nat) (fs : FS), files.Nodup →
      (∀ f ∈ files, (fs f).isSome = true) →
      ∃ fs', deleteLoop responses files i fs = Except.ok fs' ∧
        (∀ j, j < files.length →
          fs' (files.getD j []) =
            if affirmative (responses (i + j)) = true then none
            else fs (files.getD j [])) ∧
        (∀ p, p ∉ files → fs' p = fs p) := by
  intro files
  induction files with
  | nil =>
    intro i fs _ _
    refine ⟨fs, rfl, ?_, fun p _ => rfl⟩
    intro j hj
    simp at hj
  | cons f rest ih =>
    intro i fs hnd hex
    have hnd' : rest.Nodup := (List.nodup_cons.mp hnd).2
    have hfnotin : f ∉ rest := (List.nodup_cons.mp hnd).1
    have hmemD : ∀ j, j < rest.length → rest.getD j [] ∈ rest := by
      intro j hj
      rw [List.getD_eq_getElem rest [] hj]
      exact List.getElem_mem hj
    by_cases haff : affirmative (responses i) = true
    · obtain ⟨v, hv⟩ := Option.isSome_iff_exists.mp (hex f (List.mem_cons_self f rest))
      have hunlink : unlink fs f = Except.ok (fun q => if q = f then none else fs q) := by
        unfold unlink
        rw [hv]
      have hex' : ∀ g ∈ rest, ((fun q => if q = f then none else fs q) g).isSome = true := by
        intro g hg
        have hgf : g ≠ f := fun he => hfnotin (he ▸ hg)
        show (if g = f then none else fs g).isSome = true
        rw [if_neg hgf]
        exact hex g (List.mem_cons_of_mem _ hg)
      obtain ⟨fs', hrun, hidx, hoff⟩ := ih (i + 1) _ hnd' hex'
      refine ⟨fs', ?_, ?_, ?_⟩
      · show deleteLoop responses (f :: rest) i fs = Except.ok fs'
        unfold deleteLoop
        rw [if_pos haff, hunlink]
        exact hrun
      · intro j hj
        cases j with
        | zero =>
          have h0 : (f :: rest).getD 0 [] = f := rfl
          rw [h0, hoff f hfnotin]
          show (if f = f then none else fs f) = _
          rw [if_pos rfl, Nat.add_zero, if_pos haff]
        | succ j' =>
          have hj' : j' < rest.length := by
            simp at hj
            omega
          have hD : (f :: rest).getD (j' + 1) [] = rest.getD j' [] := rfl
          have hne : rest.getD j' [] ≠ f := by
            intro he
            exact hfnotin (he ▸ hmemD j' hj')
          have := hidx j' hj'
          rw [hD, this, show i + 1 + j' = i + (j' + 1) from by omega]
          show (if affirmative (responses (i + (j' + 1))) = true then none
            else if rest.getD j' [] = f then none else fs (rest.getD j' [])) = _
          rw [if_neg hne]
      · intro p hp
        have hp1 : p ∉ rest := fun h => hp (List.mem_cons_of_mem _ h)
        have hpf : p ≠ f := fun he => hp (he ▸ List.mem_cons_self f rest)
        rw [hoff p hp1]
        show (if p = f then none else fs p) = fs p
        rw [if_neg hpf]
    · have hex' : ∀ g ∈ rest, (fs g).isSome = true :=
        fun g hg => hex g (List.mem_cons_of_mem _ hg)
      obtain ⟨fs', hrun, hidx, hoff⟩ := ih (i + 1) fs hnd' hex'
      refine ⟨fs', ?_, ?_, ?_⟩
      · show deleteLoop responses (f :: rest) i fs = Except.ok fs'
        unfold deleteLoop
        rw [if_neg haff]
        exact hrun
      · intro j hj
        cases j with
        | zero =>
          have h0 : (f :: rest).getD 0 [] = f := rfl
          rw [h0, hoff f hfnotin, Nat.add_zero, if_neg haff]
        | succ j' =>
          have hj' : j' < rest.length := by
            simp at hj
            omega
          have hD : (f :: rest).getD (j' + 1) [] = rest.getD j' [] := rfl
          rw [hD, hidx j' hj', show i + 1 + j' = i + (j' + 1) from by omega]
      · intro p hp
        exact hoff p (fun h => hp (List.mem_cons_of_mem _ h))

/-- C9: during an unforced delete of distinct existing files, a
non-affirmative response (anything but empty, `y`, `Y`) leaves the file in
place with no error raised, while an affirmative response unlinks it; no
other file is touched. -/
theorem C9_unforced_delete_prompt (files : List Str) (responses : Nat → Str)
    (fs : FS) (hnd : files.Nodup) (hex : ∀ f ∈ files, (fs f).isSome = true) :
    ∃ fs', delete_reminders files false responses fs = Except.ok fs' ∧
      (∀ j, j < files.length →
        fs' (files.getD j []) =
          if affirmative (responses j) = true then none else fs (files.getD j [])) ∧
      (∀ p, p ∉ files → fs' p = fs p) := by
  obtain ⟨fs', hrun, hidx, hoff⟩ := deleteLoop_spec responses files 0 fs hnd hex
  refine ⟨fs', hrun, ?_, hoff⟩
  intro j hj
  have := hidx j hj
  rw [Nat.zero_add] at this
  exact this

/-- C9 witness: deleting `a.rem` (response `n`: kept) and `b.rem`
(response empty: removed). -/
theorem C9_unforced_delete_prompt_witness :
    ∃ fs', delete_reminders [lit "a.rem", lit "b.rem"] false
        (fun i => if i = 0 then lit "n" else [])
        (fun p => if p = lit "a.rem" ∨ p = lit "b.rem" then some (lit "t") else none) =
        Except.ok fs' ∧
      (∀ j, j < ([lit "a.rem", lit "b.rem"] : List Str).length →
        fs' (([lit "a.rem", lit "b.rem"] : List Str).getD j []) =
          if affirmative (if j = 0 then lit "n" else []) = true then none
          else (fun p => if p = lit "a.rem" ∨ p = lit "b.rem" then some (lit "t") else none)
            (([lit "a.rem", lit "b.rem"] : List Str).getD j [])) ∧
      (∀ p, p ∉ ([lit "a.rem", lit "b.rem"] : List Str) → fs' p =
        (fun p => if p = lit "a.rem" ∨ p = lit "b.rem" then some (lit "t") else none) p) :=
  C9_unforced_delete_prompt [lit "a.rem", lit "b.rem"]
    (fun i => if i = 0 then lit "n" else [])
    (fun p => if p = lit "a.rem" ∨ p = lit "b.rem" then some (lit "t") else none)
    (by decide) (by decide)
